import Mathlib

/-!
Shallow embedding of the meeting-summarizer bot's session-lifecycle and
connection-resilience core (src/bot/meeting_state.py, src/bot/audio_recorder.py,
src/bot/main.py), together with theorems settling the specification claims.

Modelling conventions:
* `uuid.uuid4()` results and Discord snowflake ids are modelled as `Nat`
  (start operations take an explicit `fresh` id parameter).
* `datetime.utcnow()` is modelled by an explicit `now : Nat` clock parameter
  supplied to each operation that reads the clock.
* Python dicts keyed by guild id are modelled as functions `Nat → Option _`
  (a key is present iff the function returns `some`).
* The session records that `end_meeting` hands back to callers after deleting
  them from the dict are kept in an explicit `archived` list so that
  whole-history invariants can be stated.
* Structured error strings are modelled as inductive error codes carrying the
  data interpolated into the Python message.
-/

namespace MeetingBotModel

/-- Embeds `MeetingStatus` from src/bot/meeting_state.py. -/
inductive MeetingStatus where
  | idle
  | recording
  | ended
deriving DecidableEq, Repr

/-- Embeds `MeetingSession.__init__` fields from src/bot/meeting_state.py. -/
structure MeetingSession where
  meeting_id : Nat
  guild_id : Nat
  voice_channel_id : Nat
  text_channel_id : Nat
  initiator_id : Nat
  start_timestamp : Nat
  end_timestamp : Option Nat
  status : MeetingStatus
  recording_path : Option Nat
deriving DecidableEq, Repr

/-- Embeds `MeetingSession.__init__`: a fresh session starts RECORDING with no
end timestamp. `fresh` models the generated uuid, `now` the start clock. -/
def MeetingSession.new (fresh now guild_id voice_channel_id text_channel_id initiator_id : Nat) :
    MeetingSession :=
  { meeting_id := fresh
    guild_id := guild_id
    voice_channel_id := voice_channel_id
    text_channel_id := text_channel_id
    initiator_id := initiator_id
    start_timestamp := now
    end_timestamp := none
    status := MeetingStatus.recording
    recording_path := none }

/-- Embeds `MeetingSession.end`: sets status ENDED and the end timestamp. -/
def MeetingSession.end_ (s : MeetingSession) (now : Nat) : MeetingSession :=
  { s with status := MeetingStatus.ended, end_timestamp := some now }

/-- Embeds `MeetingSession.duration_seconds`; signed seconds as `Int`. -/
def MeetingSession.duration_seconds (s : MeetingSession) (now : Nat) : Int :=
  match s.end_timestamp with
  | some e => (e : Int) - (s.start_timestamp : Int)
  | none => (now : Int) - (s.start_timestamp : Int)

/-- Error outcomes of `MeetingStateManager` operations (the Python code returns
interpolated strings; the model keeps the error kind and interpolated id). -/
inductive StoreErr where
  | duplicateSession (existing_meeting_id : Nat)
  | noActiveSession
deriving DecidableEq, Repr

/-- Embeds `MeetingStateManager` state: `_active_meetings` is a dict keyed by
guild id; `archived` additionally tracks the ended records that `end_meeting`
returned to callers after removing them from the dict. -/
structure MeetingStateManager where
  active_meetings : Nat → Option MeetingSession
  archived : List MeetingSession

/-- Embeds `MeetingStateManager.__init__`: empty active dict. -/
def MeetingStateManager.init : MeetingStateManager :=
  { active_meetings := fun _ => none, archived := [] }

/-- Embeds `MeetingStateManager.start_meeting`: rejects if a session for the
guild is already registered, otherwise creates and registers a new session. -/
def MeetingStateManager.start_meeting (st : MeetingStateManager)
    (fresh now guild_id voice_channel_id text_channel_id initiator_id : Nat) :
    (Bool × Option MeetingSession × Option StoreErr) × MeetingStateManager :=
  match st.active_meetings guild_id with
  | some existing => ((false, none, some (StoreErr.duplicateSession existing.meeting_id)), st)
  | none =>
      let session := MeetingSession.new fresh now guild_id voice_channel_id
        text_channel_id initiator_id
      ((true, some session, none),
       { st with active_meetings := fun g =>
          if g = guild_id then some session else st.active_meetings g })

/-- Embeds `MeetingStateManager.end_meeting`: fails when no session is
registered for the guild; otherwise ends the session, removes it from the
active dict and returns the finalized record. -/
def MeetingStateManager.end_meeting (st : MeetingStateManager) (now guild_id : Nat) :
    (Bool × Option MeetingSession × Option StoreErr) × MeetingStateManager :=
  match st.active_meetings guild_id with
  | none => ((false, none, some StoreErr.noActiveSession), st)
  | some session =>
      let ended := session.end_ now
      ((true, some ended, none),
       { active_meetings := fun g => if g = guild_id then none else st.active_meetings g
         archived := st.archived ++ [ended] })

/-- Embeds `MeetingStateManager.get_active_meeting`. -/
def MeetingStateManager.get_active_meeting (st : MeetingStateManager) (guild_id : Nat) :
    Option MeetingSession :=
  st.active_meetings guild_id

/-- Embeds `MeetingStateManager.is_meeting_active`. -/
def MeetingStateManager.is_meeting_active (st : MeetingStateManager) (guild_id : Nat) : Bool :=
  (st.active_meetings guild_id).isSome

/-- Embeds `AudioSink` state from src/bot/audio_recorder.py. `_user_writers`
maps a participant id to the list of raw frames written to that participant's
open wave writer (a frame is a byte list); insertion order is kept because
`cleanup` iterates the dict in insertion order. The fixed recording format
fields are carried verbatim. -/
structure AudioSink where
  meeting_id : Nat
  output_dir : String
  user_writers : List (Nat × List (List Nat))
  sample_rate : Nat
  channels : Nat
  sample_width : Nat
deriving DecidableEq, Repr

/-- Embeds `AudioSink.__init__` (the on-disk `meeting_dir` side effect is the
pair of `output_dir` and `meeting_id`, see `AudioSink.meeting_dir`). -/
def AudioSink.new (meeting_id : Nat) (output_dir : String) : AudioSink :=
  { meeting_id := meeting_id
    output_dir := output_dir
    user_writers := []
    sample_rate := 48000
    channels := 2
    sample_width := 2 }

/-- The session-scoped output directory `Path(output_dir) / meeting_id`. -/
def AudioSink.meeting_dir (s : AudioSink) : String × Nat :=
  (s.output_dir, s.meeting_id)

/-- Appends one frame to the writer registered under `userId` (the
`writer.writeframes(data)` call of `AudioSink.write`). -/
def appendFrame : List (Nat × List (List Nat)) → Nat → List Nat → List (Nat × List (List Nat))
  | [], _, _ => []
  | (u, fs) :: rest, userId, data =>
      if u = userId then (u, fs ++ [data]) :: rest
      else (u, fs) :: appendFrame rest userId data

/-- Embeds `AudioSink.write`: an empty payload is a no-op; a participant id not
yet in `_user_writers` first gets a fresh writer (`_init_user_writer`), then the
frame is appended to that participant's writer. -/
def AudioSink.write (s : AudioSink) (userId : Nat) (data : List Nat) : AudioSink :=
  if data = [] then s
  else if userId ∈ s.user_writers.map Prod.fst then
    { s with user_writers := appendFrame s.user_writers userId data }
  else
    { s with user_writers := s.user_writers ++ [(userId, [data])] }

/-- Folds `AudioSink.write` over a list of `(participant, frame)` deliveries. -/
def AudioSink.writeMany (s : AudioSink) (evts : List (Nat × List Nat)) : AudioSink :=
  evts.foldl (fun acc e => acc.write e.1 e.2) s

/-- Embeds `AudioSink.cleanup`: iterates every registered writer in insertion
order, attempting `writer.close()` on each one (a failing close is only logged,
recorded here as the Bool for that participant), then clears the mapping.
`closeFails` is the environment's per-participant close-failure oracle. -/
def AudioSink.cleanup (s : AudioSink) (closeFails : Nat → Bool) :
    AudioSink × List (Nat × Bool) :=
  ({ s with user_writers := [] },
   s.user_writers.map (fun p => (p.1, !closeFails p.1)))

/-- Embeds `AudioSink.get_recording_info`. -/
structure RecordingInfo where
  meeting_id : Nat
  output_dir : String × Nat
  user_count : Nat
  user_ids : List Nat
deriving DecidableEq, Repr

/-- Embeds `AudioSink.get_recording_info`: a read-only snapshot. -/
def AudioSink.get_recording_info (s : AudioSink) : RecordingInfo :=
  { meeting_id := s.meeting_id
    output_dir := s.meeting_dir
    user_count := s.user_writers.length
    user_ids := s.user_writers.map Prod.fst }

/-- The participant ids currently holding an open writer, in insertion order. -/
def AudioSink.keys (s : AudioSink) : List Nat :=
  s.user_writers.map Prod.fst

/-- Capability surface of a `discord.VoiceClient` as probed by
`AudioRecordingManager.start_recording` (`hasattr(voice_client, 'listen')` and
`hasattr(voice_client, 'start_recording')`). -/
structure VoiceClient where
  has_listen : Bool
  has_start_recording : Bool
deriving DecidableEq, Repr

/-- Error outcomes of `AudioRecordingManager` operations (error kinds of the
Python message strings). -/
inductive RecErr where
  | alreadyActive
  | unsupported
  | noActiveRecording
deriving DecidableEq, Repr

/-- Embeds `AudioRecordingManager` state: `_active_recorders` is a dict from
guild id to the registered `AudioSink`. -/
structure AudioRecordingManager where
  recordings_dir : String
  active_recorders : Nat → Option AudioSink

/-- Embeds `AudioRecordingManager.__init__`. -/
def AudioRecordingManager.init (recordings_dir : String) : AudioRecordingManager :=
  { recordings_dir := recordings_dir, active_recorders := fun _ => none }

/-- Embeds `AudioRecordingManager.start_recording`: rejects when a sink is
already registered for the guild; otherwise a fresh `AudioSink` is constructed,
and only if the voice client exposes a capture capability (`listen` or
`start_recording`) is the sink attached and registered — with neither
capability the function returns the unsupported error before registering. -/
def AudioRecordingManager.start_recording (m : AudioRecordingManager) (guild_id : Nat)
    (voice_client : VoiceClient) (meeting_id : Nat) :
    (Bool × Option RecErr) × AudioRecordingManager :=
  if (m.active_recorders guild_id).isSome then
    ((false, some RecErr.alreadyActive), m)
  else
    let sink := AudioSink.new meeting_id m.recordings_dir
    if voice_client.has_listen || voice_client.has_start_recording then
      ((true, none),
       { m with active_recorders := fun g =>
          if g = guild_id then some sink else m.active_recorders g })
    else
      ((false, some RecErr.unsupported), m)

/-- Embeds `AudioRecordingManager.stop_recording`: fails when no sink is
registered; otherwise detaches capture, snapshots the recording info, cleans up
the sink and removes the registration. -/
def AudioRecordingManager.stop_recording (m : AudioRecordingManager) (guild_id : Nat)
    (closeFails : Nat → Bool) :
    (Bool × Option RecErr × Option RecordingInfo) × AudioRecordingManager :=
  match m.active_recorders guild_id with
  | none => ((false, some RecErr.noActiveRecording, none), m)
  | some sink =>
      let info := sink.get_recording_info
      let _ := sink.cleanup closeFails
      ((true, none, some info),
       { m with active_recorders := fun g =>
          if g = guild_id then none else m.active_recorders g })

/-- Embeds `MeetingBot.__init__` reconnection configuration
(`self.max_reconnect_attempts = 3`). -/
def max_reconnect_attempts : Nat := 3

/-- Embeds `MeetingBot.__init__` reconnection configuration
(`self.reconnect_base_delay = 2` seconds). -/
def reconnect_base_delay : Nat := 2

/-- The slice of a `discord.Guild` read by the reconnection supervisor:
guild id, the set of currently resolvable channel ids (`guild.get_channel`),
and `guild.voice_client` at final-cleanup time. -/
structure Guild where
  id : Nat
  channels : List Nat
  voice_client : Option VoiceClient
deriving DecidableEq, Repr

/-- Environment oracle for one supervisor run: whether the transport-level
`voice_channel.connect()` on attempt `n` succeeds (a `false` models the raised
exception caught by `_attempt_reconnect`), the capability surface of the voice
client a successful connect yields, and the per-participant close-failure
oracle used by any `cleanup`. -/
structure ReconnectEnv where
  connectOk : Nat → Bool
  connected_vc : VoiceClient
  closeFails : Nat → Bool

/-- Text-channel messages sent by the supervisor
(`Reconnected successfully` and `Meeting ended due to connection failure`). -/
inductive Notice where
  | reconnected (meeting_id : Nat)
  | endedConnectionFailure (meeting_id : Nat)
deriving DecidableEq, Repr

/-- Observable outcome of `MeetingBot._attempt_reconnect`: whether it returned
True, the backoff waits it performed as `(attempt, delay)` pairs in order, the
number of the last attempt it made, the audio manager state it left behind,
and the notices it sent. -/
structure ReconnectResult where
  reconnected : Bool
  waits : List (Nat × Nat)
  attemptsMade : Nat
  audio : AudioRecordingManager
  notices : List Notice

/-- The backoff wait performed before attempt number `attempt` (none before
attempt 1), as recorded in a `ReconnectResult` trace. -/
def waitFor (attempt : Nat) : List (Nat × Nat) :=
  if 1 < attempt then [(attempt, reconnect_base_delay * 2 ^ (attempt - 2))] else []

/-- The `Reconnected successfully` notification, sent only when the
originating text channel still resolves. -/
def successNotices (guild : Guild) (session : MeetingSession) : List Notice :=
  if session.text_channel_id ∈ guild.channels then
    [Notice.reconnected session.meeting_id]
  else []

/-- Embeds the `for attempt in range(1, max+1)` loop body of
`MeetingBot._attempt_reconnect`, entered at attempt number `attempt` with
`remaining` attempts still allowed (including this one). Before an attempt
`n > 1` the loop waits `reconnect_base_delay * 2 ^ (n - 2)` seconds; a
successful connect is followed by `audio.start_recording` against the original
meeting id, whose failure disconnects again and aborts the whole run; a failed
connect falls through to the next attempt, or aborts after the last one. -/
def attemptLoop (env : ReconnectEnv) (audio : AudioRecordingManager) (guild : Guild)
    (session : MeetingSession) (attempt : Nat) : Nat → ReconnectResult
  | 0 => { reconnected := false, waits := [], attemptsMade := attempt - 1
           audio := audio, notices := [] }
  | remaining + 1 =>
    let w : List (Nat × Nat) := waitFor attempt
    if env.connectOk attempt then
      let r := audio.start_recording guild.id env.connected_vc session.meeting_id
      if r.1.1 then
        { reconnected := true, waits := w, attemptsMade := attempt, audio := r.2
          notices := successNotices guild session }
      else
        { reconnected := false, waits := w, attemptsMade := attempt, audio := r.2
          notices := [] }
    else
      if remaining = 0 then
        { reconnected := false, waits := w, attemptsMade := attempt, audio := audio
          notices := [] }
      else
        let rest := attemptLoop env audio guild session (attempt + 1) remaining
        { rest with waits := w ++ rest.waits }

/-- Embeds `MeetingBot._attempt_reconnect`: resolves the session's voice
channel (an unresolvable channel aborts with no attempt), then runs the
bounded-retry loop starting at attempt 1. -/
def attempt_reconnect (env : ReconnectEnv) (audio : AudioRecordingManager) (guild : Guild)
    (session : MeetingSession) : ReconnectResult :=
  if session.voice_channel_id ∈ guild.channels then
    attemptLoop env audio guild session 1 max_reconnect_attempts
  else
    { reconnected := false, waits := [], attemptsMade := 0, audio := audio, notices := [] }

/-- The mutable state of `MeetingBot` referenced by the claims:
`self.meeting_manager`, `self.audio_manager`, and the per-guild in-flight
reconnection flags `self._reconnecting` (modelled as the list of flagged
guild ids). -/
structure MeetingBot where
  meeting_manager : MeetingStateManager
  audio_manager : AudioRecordingManager
  reconnecting : List Nat

/-- Observable trace of one delivery of an involuntary-disconnect signal to
`MeetingBot.on_voice_state_update`: whether a supervisor run started, the
reconnect outcome, and the notices sent. -/
structure HandlerTrace where
  supervisorRan : Bool
  reconnected : Bool
  waits : List (Nat × Nat)
  attemptsMade : Nat
  notices : List Notice
deriving Repr

/-- Trace of a signal that started no supervisor run. -/
def HandlerTrace.noRun : HandlerTrace :=
  { supervisorRan := false, reconnected := false, waits := [], attemptsMade := 0, notices := [] }

/-- Embeds the involuntary-disconnect branch of
`MeetingBot.on_voice_state_update` (the body guarded by
`member.id == self.user.id and before.channel and not after.channel`):
ignores the signal when no meeting is active or a reconnection is already in
flight for the guild; otherwise sets the in-flight flag, runs
`_attempt_reconnect`, clears the flag, and on failure performs the final
cleanup — stopping residual recording only when `guild.voice_client` is still
present, ending the session, and notifying the originating text channel when
it still resolves. -/
def on_voice_state_update_disconnect (env : ReconnectEnv) (bot : MeetingBot) (guild : Guild)
    (now : Nat) : MeetingBot × HandlerTrace :=
  match bot.meeting_manager.get_active_meeting guild.id with
  | none => (bot, HandlerTrace.noRun)
  | some session =>
    if guild.id ∈ bot.reconnecting then (bot, HandlerTrace.noRun)
    else
      let res := attempt_reconnect env bot.audio_manager guild session
      let flags := (guild.id :: bot.reconnecting).erase guild.id
      let bot1 : MeetingBot :=
        { meeting_manager := bot.meeting_manager, audio_manager := res.audio
          reconnecting := flags }
      if res.reconnected then
        (bot1,
         { supervisorRan := true, reconnected := true, waits := res.waits
           attemptsMade := res.attemptsMade, notices := res.notices })
      else
        let audio2 := match guild.voice_client with
          | some _ => (bot1.audio_manager.stop_recording guild.id env.closeFails).2
          | none => bot1.audio_manager
        let store2 := (bot1.meeting_manager.end_meeting now guild.id).2
        let notices2 := res.notices ++
          (if session.text_channel_id ∈ guild.channels then
            [Notice.endedConnectionFailure session.meeting_id] else [])
        ({ meeting_manager := store2, audio_manager := audio2, reconnecting := flags },
         { supervisorRan := true, reconnected := false, waits := res.waits
           attemptsMade := res.attemptsMade, notices := notices2 })

/-- User-visible outcome of the `/start-meeting` command handler. -/
inductive CmdOutcome where
  | alreadyInProgress (existing_meeting_id : Nat)
  | startFailed
  | connectFailed
  | recordingFailed (err : Option RecErr)
  | started (meeting_id : Nat)
deriving DecidableEq, Repr

/-- Embeds the `start_meeting` slash-command handler of src/bot/main.py (from
the `is_meeting_active` check onward, for an invoking member already in voice
channel `voice_channel_id`): rejects when a meeting is active, registers a new
session, connects to voice (`connectOk` models success of
`voice_channel.connect()`; its failure rolls the session back), then starts
recording — a recording failure disconnects and rolls the session back via
`end_meeting`. -/
def start_meeting_command (connectOk : Bool) (vc : VoiceClient) (bot : MeetingBot)
    (fresh now guild_id voice_channel_id text_channel_id initiator_id : Nat) :
    MeetingBot × CmdOutcome :=
  match bot.meeting_manager.get_active_meeting guild_id with
  | some existing => (bot, CmdOutcome.alreadyInProgress existing.meeting_id)
  | none =>
    let r := bot.meeting_manager.start_meeting fresh now guild_id voice_channel_id
      text_channel_id initiator_id
    match r.1.2.1 with
    | none => ({ bot with meeting_manager := r.2 }, CmdOutcome.startFailed)
    | some session =>
      if connectOk then
        let rr := bot.audio_manager.start_recording guild_id vc session.meeting_id
        if rr.1.1 then
          ({ bot with meeting_manager := r.2, audio_manager := rr.2 },
           CmdOutcome.started session.meeting_id)
        else
          let store2 := (r.2.end_meeting now guild_id).2
          ({ bot with meeting_manager := store2, audio_manager := rr.2 },
           CmdOutcome.recordingFailed rr.1.2)
      else
        let store2 := (r.2.end_meeting now guild_id).2
        ({ bot with meeting_manager := store2 }, CmdOutcome.connectFailed)

/-- A mutating operation on the session store, for stating invariants over all
states reachable by sequences of `start_meeting` / `end_meeting` calls. -/
inductive StoreOp where
  | startOp (fresh now guild_id voice_channel_id text_channel_id initiator_id : Nat)
  | endOp (now guild_id : Nat)

/-- Applies one store operation, keeping only the state. -/
def applyOp (st : MeetingStateManager) : StoreOp → MeetingStateManager
  | StoreOp.startOp fresh now g v t i => (st.start_meeting fresh now g v t i).2
  | StoreOp.endOp now g => (st.end_meeting now g).2

/-- Applies a sequence of store operations from left to right. -/
def applyOps (st : MeetingStateManager) (ops : List StoreOp) : MeetingStateManager :=
  ops.foldl applyOp st

/-- Store invariant: every registered session is RECORDING and filed under its
own guild id, and every archived record is ENDED. -/
def StoreInv (st : MeetingStateManager) : Prop :=
  (∀ g s, st.active_meetings g = some s →
    s.status = MeetingStatus.recording ∧ s.guild_id = g) ∧
  (∀ s ∈ st.archived, s.status = MeetingStatus.ended)

/-- Number of session records for group `g` with status RECORDING, over the
whole record population (the active dict entry plus all archived records). -/
def recordingRecordsFor (st : MeetingStateManager) (g : Nat) : Nat :=
  (match st.active_meetings g with
   | some s => if s.status = MeetingStatus.recording ∧ s.guild_id = g then 1 else 0
   | none => 0) +
  (st.archived.filter
    (fun s => s.guild_id == g && s.status == MeetingStatus.recording)).length

/-- Concrete fixture: a RECORDING session for guild 1 (meeting id 7, voice
channel 10, text channel 20, initiator 5, started at time 0). -/
def sessionA : MeetingSession :=
  { meeting_id := 7, guild_id := 1, voice_channel_id := 10, text_channel_id := 20
    initiator_id := 5, start_timestamp := 0, end_timestamp := none
    status := MeetingStatus.recording, recording_path := none }

/-- Concrete fixture: the sink for meeting 7, with one participant stream. -/
def sinkA : AudioSink :=
  { meeting_id := 7, output_dir := "recordings", user_writers := [(5, [[1, 2]])]
    sample_rate := 48000, channels := 2, sample_width := 2 }

/-- Concrete fixture: store with `sessionA` active for guild 1. -/
def storeA : MeetingStateManager :=
  { active_meetings := fun g => if g = 1 then some sessionA else none, archived := [] }

/-- Concrete fixture: audio manager with `sinkA` registered for guild 1. -/
def audioA : AudioRecordingManager :=
  { recordings_dir := "recordings"
    active_recorders := fun g => if g = 1 then some sinkA else none }

/-- Concrete fixture: bot mid-meeting for guild 1, no reconnection in flight. -/
def botA : MeetingBot :=
  { meeting_manager := storeA, audio_manager := audioA, reconnecting := [] }

/-- Concrete fixture: `botA` with a reconnection already in flight for
guild 1. -/
def botFlagged : MeetingBot :=
  { meeting_manager := storeA, audio_manager := audioA, reconnecting := [1] }

/-- Concrete fixture: bot with no meetings and no sinks. -/
def botEmpty : MeetingBot :=
  { meeting_manager := MeetingStateManager.init
    audio_manager := AudioRecordingManager.init "recordings", reconnecting := [] }

/-- Concrete fixture: guild 1 whose channels 10 and 20 resolve and whose
voice client is gone after the involuntary disconnect. -/
def guildNoVC : Guild := { id := 1, channels := [10, 20], voice_client := none }

/-- Concrete fixture: guild 1 that still exposes a voice client. -/
def guildWithVC : Guild :=
  { id := 1, channels := [10, 20]
    voice_client := some { has_listen := true, has_start_recording := false } }

/-- Concrete fixture: transport whose connect always fails. -/
def envAllFail : ReconnectEnv :=
  { connectOk := fun _ => false
    connected_vc := { has_listen := true, has_start_recording := false }
    closeFails := fun _ => false }

/-- Concrete fixture: transport whose connect always succeeds, yielding a
listen-capable voice client. -/
def envAllOk : ReconnectEnv :=
  { connectOk := fun _ => true
    connected_vc := { has_listen := true, has_start_recording := false }
    closeFails := fun _ => false }

/-- C9: ending a meeting for a group with no active session always fails with
the no-active-session error and returns the store unchanged. -/
theorem end_meeting_no_active_session (st : MeetingStateManager) (now guild_id : Nat)
    (h : st.active_meetings guild_id = none) :
    st.end_meeting now guild_id = ((false, none, some StoreErr.noActiveSession), st) := by
  simp [MeetingStateManager.end_meeting, h]

/-- Witness for C9 at the empty store and guild 1. -/
theorem end_meeting_no_active_session_witness :
    MeetingStateManager.init.active_meetings 1 = none ∧
    MeetingStateManager.init.end_meeting 5 1 =
      ((false, none, some StoreErr.noActiveSession), MeetingStateManager.init) :=
  ⟨rfl, end_meeting_no_active_session MeetingStateManager.init 5 1 rfl⟩

/-- C8: `start` immediately followed by `end` on a fresh group returns the
finalized record with status ENDED, end time strictly after start time and
duration equal to their difference, and leaves the group without an active
session while still returning the record. -/
theorem start_end_round_trip (st : MeetingStateManager)
    (fresh t1 t2 g vcId tcId uid now' : Nat)
    (hfree : st.active_meetings g = none) (ht : t1 < t2) :
    ∃ ended : MeetingSession,
      ((st.start_meeting fresh t1 g vcId tcId uid).2.end_meeting t2 g).1 =
        (true, some ended, none) ∧
      ended.status = MeetingStatus.ended ∧
      ended.start_timestamp = t1 ∧
      ended.end_timestamp = some t2 ∧
      ended.start_timestamp < t2 ∧
      ended.duration_seconds now' = (t2 : Int) - (t1 : Int) ∧
      ((st.start_meeting fresh t1 g vcId tcId uid).2.end_meeting t2 g).2.active_meetings g
        = none := by
  refine ⟨(MeetingSession.new fresh t1 g vcId tcId uid).end_ t2, ?_⟩
  simp [MeetingStateManager.start_meeting, MeetingStateManager.end_meeting, hfree,
    MeetingSession.new, MeetingSession.end_, MeetingSession.duration_seconds, ht]

/-- Witness for C8: start at time 0, end at time 5, on the empty store. -/
theorem start_end_round_trip_witness :
    ∃ ended : MeetingSession,
      ((MeetingStateManager.init.start_meeting 1 0 1 10 20 30).2.end_meeting 5 1).1 =
        (true, some ended, none) ∧
      ended.status = MeetingStatus.ended ∧
      ended.start_timestamp = 0 ∧
      ended.end_timestamp = some 5 ∧
      ended.start_timestamp < 5 ∧
      ended.duration_seconds 9 = (5 : Int) - (0 : Int) ∧
      ((MeetingStateManager.init.start_meeting 1 0 1 10 20 30).2.end_meeting 5 1).2.active_meetings 1
        = none :=
  start_end_round_trip MeetingStateManager.init 1 0 5 1 10 20 30 9 rfl (by decide)

/-- C10: `cleanup` empties the writer mapping, and a second `cleanup` on the
already-cleaned sink is a no-op: it attempts no closes and leaves the sink
state unchanged, whatever the close-failure oracles were. -/
theorem cleanup_idempotent (s : AudioSink) (f f' : Nat → Bool) :
    (s.cleanup f).1.user_writers = [] ∧
    (s.cleanup f).1.cleanup f' = ((s.cleanup f).1, []) := by
  cases s
  simp [AudioSink.cleanup]

/-- The empty store satisfies the store invariant. -/
theorem storeInv_init : StoreInv MeetingStateManager.init := by
  constructor
  · intro g s h
    simp [MeetingStateManager.init] at h
  · intro s h
    simp [MeetingStateManager.init] at h

/-- One `start_meeting` or `end_meeting` step preserves the store invariant. -/
theorem storeInv_applyOp (st : MeetingStateManager) (op : StoreOp) (hinv : StoreInv st) :
    StoreInv (applyOp st op) := by
  obtain ⟨hact, harch⟩ := hinv
  cases op with
  | startOp fresh now g v t i =>
      rcases h : st.active_meetings g with _ | existing
      · simp only [applyOp, MeetingStateManager.start_meeting, h]
        refine ⟨?_, harch⟩
        intro g' s' hs'
        by_cases hg : g' = g
        · subst hg
          simp at hs'
          subst hs'
          simp [MeetingSession.new]
        · simp [hg] at hs'
          exact hact g' s' hs'
      · simp only [applyOp, MeetingStateManager.start_meeting, h]
        exact ⟨hact, harch⟩
  | endOp now g =>
      rcases h : st.active_meetings g with _ | session
      · simp only [applyOp, MeetingStateManager.end_meeting, h]
        exact ⟨hact, harch⟩
      · simp only [applyOp, MeetingStateManager.end_meeting, h]
        constructor
        · intro g' s' hs'
          by_cases hg : g' = g
          · subst hg
            simp at hs'
          · simp [hg] at hs'
            exact hact g' s' hs'
        · intro s' hs'
          simp only [List.mem_append, List.mem_singleton] at hs'
          rcases hs' with hs' | hs'
          · exact harch s' hs'
          · subst hs'
            simp [MeetingSession.end_]

/-- Any state reachable from the empty store satisfies the store invariant. -/
theorem storeInv_applyOps (ops : List StoreOp) (st : MeetingStateManager)
    (hinv : StoreInv st) : StoreInv (applyOps st ops) := by
  induction ops generalizing st with
  | nil => exact hinv
  | cons op rest ih => exact ih (applyOp st op) (storeInv_applyOp st op hinv)

/-- Under the store invariant, at most one RECORDING record exists per group. -/
theorem storeInv_recordingRecords (st : MeetingStateManager) (g : Nat)
    (hinv : StoreInv st) : recordingRecordsFor st g ≤ 1 := by
  obtain ⟨hact, harch⟩ := hinv
  unfold recordingRecordsFor
  have harchlen :
      (st.archived.filter
        (fun s => s.guild_id == g && s.status == MeetingStatus.recording)).length = 0 := by
    rw [List.length_eq_zero]
    rw [List.filter_eq_nil_iff]
    intro s hs
    have := harch s hs
    simp [this]
  rw [harchlen]
  rcases h : st.active_meetings g with _ | s
  · simp [h]
  · simp only [h]
    split <;> simp

/-- C5: every store state reachable from the empty store by any sequence of
start/end operations has at most one RECORDING session record per group id,
and a start on a group that already has an active session is rejected with the
DUPLICATE_SESSION error carrying the existing meeting id and changes nothing. -/
theorem single_recording_session_per_group (ops : List StoreOp) (g : Nat)
    (st : MeetingStateManager) (ex : MeetingSession) (fresh now vcId tcId uid : Nat) :
    recordingRecordsFor (applyOps MeetingStateManager.init ops) g ≤ 1 ∧
    (st.active_meetings g = some ex →
      st.start_meeting fresh now g vcId tcId uid =
        ((false, none, some (StoreErr.duplicateSession ex.meeting_id)), st)) := by
  constructor
  · exact storeInv_recordingRecords _ g (storeInv_applyOps ops _ storeInv_init)
  · intro h
    simp [MeetingStateManager.start_meeting, h]

/-- Witness for C5: a two-start history on guild 1, and the duplicate rejection
evaluated on the concrete store holding `sessionA` (meeting id 7). -/
theorem single_recording_session_per_group_witness :
    recordingRecordsFor
      (applyOps MeetingStateManager.init
        [StoreOp.startOp 1 0 1 10 20 30, StoreOp.startOp 2 3 1 10 20 30]) 1 ≤ 1 ∧
    storeA.start_meeting 2 3 1 10 20 30 =
      ((false, none, some (StoreErr.duplicateSession 7)), storeA) := by
  have h := single_recording_session_per_group
    [StoreOp.startOp 1 0 1 10 20 30, StoreOp.startOp 2 3 1 10 20 30] 1 storeA sessionA 2 3 10 20 30
  exact ⟨h.1, h.2 rfl⟩

/-- C6: when the voice client exposes neither capture capability,
`start_recording` fails with the unsupported error and registers no sink, and
the surrounding `/start-meeting` handler rolls the freshly created session
back, leaving the group with no active session and the audio manager
unchanged. -/
theorem unsupported_no_partial_state (bot : MeetingBot) (vc : VoiceClient)
    (fresh now g vcId tcId uid : Nat)
    (hcap1 : vc.has_listen = false) (hcap2 : vc.has_start_recording = false)
    (hnos : bot.meeting_manager.active_meetings g = none)
    (hnor : bot.audio_manager.active_recorders g = none) :
    bot.audio_manager.start_recording g vc fresh =
      ((false, some RecErr.unsupported), bot.audio_manager) ∧
    (start_meeting_command true vc bot fresh now g vcId tcId uid).2 =
      CmdOutcome.recordingFailed (some RecErr.unsupported) ∧
    (start_meeting_command true vc bot fresh now g vcId tcId uid).1.meeting_manager.active_meetings g
      = none ∧
    (start_meeting_command true vc bot fresh now g vcId tcId uid).1.audio_manager
      = bot.audio_manager := by
  have hrec : bot.audio_manager.start_recording g vc fresh =
      ((false, some RecErr.unsupported), bot.audio_manager) := by
    simp [AudioRecordingManager.start_recording, hnor, hcap1, hcap2]
  refine ⟨hrec, ?_⟩
  have hrec' : ∀ mid : Nat, bot.audio_manager.start_recording g vc mid =
      ((false, some RecErr.unsupported), bot.audio_manager) := by
    intro mid
    simp [AudioRecordingManager.start_recording, hnor, hcap1, hcap2]
  simp [start_meeting_command, MeetingStateManager.get_active_meeting, hnos,
    MeetingStateManager.start_meeting, hrec', MeetingStateManager.end_meeting]

/-- Witness for C6: capability-free voice client against the empty bot. -/
theorem unsupported_no_partial_state_witness :
    botEmpty.audio_manager.start_recording 1 (VoiceClient.mk false false) 7 =
      ((false, some RecErr.unsupported), botEmpty.audio_manager) ∧
    (start_meeting_command true (VoiceClient.mk false false) botEmpty 7 0 1 10 20 30).2 =
      CmdOutcome.recordingFailed (some RecErr.unsupported) ∧
    (start_meeting_command true (VoiceClient.mk false false) botEmpty 7 0 1 10 20 30).1.meeting_manager.active_meetings 1
      = none ∧
    (start_meeting_command true (VoiceClient.mk false false) botEmpty 7 0 1 10 20 30).1.audio_manager
      = botEmpty.audio_manager :=
  unsupported_no_partial_state botEmpty (VoiceClient.mk false false) 7 0 1 10 20 30
    rfl rfl rfl rfl

/-- Appending a frame to an existing writer does not change the key set. -/
theorem appendFrame_map_fst (l : List (Nat × List (List Nat))) (u : Nat) (d : List Nat) :
    (appendFrame l u d).map Prod.fst = l.map Prod.fst := by
  induction l with
  | nil => rfl
  | cons p rest ih =>
      obtain ⟨k, fs⟩ := p
      by_cases h : k = u
      · simp [appendFrame, h]
      · simp [appendFrame, h, ih]

/-- Key-set effect of one `write`: an empty frame changes nothing, a non-empty
frame adds the participant id exactly when it was absent. -/
theorem write_keys_mem (s : AudioSink) (u v : Nat) (d : List Nat) :
    u ∈ (s.write v d).keys ↔ u ∈ s.keys ∨ (u = v ∧ d ≠ []) := by
  unfold AudioSink.write AudioSink.keys
  by_cases hd : d = []
  · simp [hd]
  · by_cases hv : v ∈ s.user_writers.map Prod.fst
    · simp only [hd, hv, if_neg, if_pos, if_true]
      simp [hd, hv, appendFrame_map_fst]
      rintro rfl
      simpa using hv
    · simp [hd, hv]

/-- One `write` preserves key-set nodupness. -/
theorem write_keys_nodup (s : AudioSink) (v : Nat) (d : List Nat)
    (h : s.keys.Nodup) : (s.write v d).keys.Nodup := by
  unfold AudioSink.keys at h
  unfold AudioSink.write AudioSink.keys
  by_cases hd : d = []
  · simpa [hd] using h
  · by_cases hv : v ∈ s.user_writers.map Prod.fst
    · simpa [hd, hv, appendFrame_map_fst] using h
    · simp [hd, hv, List.nodup_append, h]

/-- A stream exists after a write sequence iff the participant id already had
one or contributed at least one non-empty frame in the sequence. -/
theorem writeMany_keys_mem (evts : List (Nat × List Nat)) (s : AudioSink) (u : Nat) :
    u ∈ (s.writeMany evts).keys ↔
      u ∈ s.keys ∨ ∃ d, (u, d) ∈ evts ∧ d ≠ [] := by
  induction evts generalizing s with
  | nil => simp [AudioSink.writeMany]
  | cons e rest ih =>
      obtain ⟨v, d⟩ := e
      have step : s.writeMany ((v, d) :: rest) = (s.write v d).writeMany rest := rfl
      rw [step, ih, write_keys_mem]
      simp only [List.mem_cons, Prod.mk.injEq]
      constructor
      · rintro ((h | ⟨rfl, hd⟩) | ⟨d', hd', hne⟩)
        · exact Or.inl h
        · exact Or.inr ⟨d, Or.inl ⟨rfl, rfl⟩, hd⟩
        · exact Or.inr ⟨d', Or.inr hd', hne⟩
      · rintro (h | ⟨d', ⟨rfl, rfl⟩ | hd', hne⟩)
        · exact Or.inl (Or.inl h)
        · exact Or.inl (Or.inr ⟨rfl, hne⟩)
        · exact Or.inr ⟨d', hd', hne⟩

/-- A write sequence preserves key-set nodupness. -/
theorem writeMany_keys_nodup (evts : List (Nat × List Nat)) (s : AudioSink)
    (h : s.keys.Nodup) : (s.writeMany evts).keys.Nodup := by
  induction evts generalizing s with
  | nil => exact h
  | cons e rest ih => exact ih (s.write e.1 e.2) (write_keys_nodup s e.1 e.2 h)

/-- `cleanup` attempts a close for exactly the registered participants, in
insertion order, regardless of the close-failure oracle. -/
theorem cleanup_attempts (s : AudioSink) (f : Nat → Bool) :
    ((s.cleanup f).2).map Prod.fst = s.keys := by
  simp [AudioSink.cleanup, AudioSink.keys, List.map_map, Function.comp]

/-- C7: starting from a fresh sink, a stream exists for a participant iff that
participant contributed at least one non-empty frame, there is exactly one
stream per such participant, and one `cleanup` attempts a close for exactly
the set of created streams, each exactly once, for every participant even when
some closes fail (the attempt list does not depend on the failure oracle), and
leaves the writer mapping empty. -/
theorem sink_stream_lifecycle (mid : Nat) (dir : String) (evts : List (Nat × List Nat))
    (f f' : Nat → Bool) :
    (∀ u, u ∈ ((AudioSink.new mid dir).writeMany evts).keys ↔
        ∃ d, (u, d) ∈ evts ∧ d ≠ []) ∧
    ((AudioSink.new mid dir).writeMany evts).keys.Nodup ∧
    ((((AudioSink.new mid dir).writeMany evts).cleanup f).2.map Prod.fst =
      ((AudioSink.new mid dir).writeMany evts).keys) ∧
    ((((AudioSink.new mid dir).writeMany evts).cleanup f).2.map Prod.fst =
      (((AudioSink.new mid dir).writeMany evts).cleanup f').2.map Prod.fst) ∧
    (((AudioSink.new mid dir).writeMany evts).cleanup f).1.user_writers = [] := by
  refine ⟨?_, ?_, ?_, ?_, ?_⟩
  · intro u
    rw [writeMany_keys_mem]
    simp [AudioSink.new, AudioSink.keys]
  · exact writeMany_keys_nodup evts _ (by simp [AudioSink.new, AudioSink.keys])
  · exact cleanup_attempts _ f
  · rw [cleanup_attempts _ f, cleanup_attempts _ f']
  · simp [AudioSink.cleanup]

/-- C3: the per-group in-flight flag makes supervisor runs mutually exclusive:
a disconnect signal for a group whose flag is set is ignored (state unchanged,
no run started), and whenever a signal is handled from a state where the flag
is clear, the flag is clear again when the handler concludes, for every
transport outcome. -/
theorem supervisor_single_flight (env : ReconnectEnv) (bot : MeetingBot)
    (guild : Guild) (now : Nat) :
    (guild.id ∈ bot.reconnecting →
      on_voice_state_update_disconnect env bot guild now = (bot, HandlerTrace.noRun)) ∧
    (guild.id ∉ bot.reconnecting →
      guild.id ∉ (on_voice_state_update_disconnect env bot guild now).1.reconnecting) := by
  constructor
  · intro h
    rcases hact : bot.meeting_manager.get_active_meeting guild.id with _ | session
    · simp [on_voice_state_update_disconnect, hact]
    · simp [on_voice_state_update_disconnect, hact, h]
  · intro h
    rcases hact : bot.meeting_manager.get_active_meeting guild.id with _ | session
    · simp only [on_voice_state_update_disconnect, hact]
      exact h
    · simp only [on_voice_state_update_disconnect, hact, if_neg h]
      split <;> simpa [List.erase_cons_head] using h

/-- Witness for C3: a flagged bot ignores the signal; an unflagged bot ends
with the flag clear. -/
theorem supervisor_single_flight_witness :
    on_voice_state_update_disconnect envAllFail botFlagged guildNoVC 9 =
      (botFlagged, HandlerTrace.noRun) ∧
    1 ∉ (on_voice_state_update_disconnect envAllFail botA guildNoVC 9).1.reconnecting :=
  ⟨(supervisor_single_flight envAllFail botFlagged guildNoVC 9).1 (by decide),
   (supervisor_single_flight envAllFail botA guildNoVC 9).2 (by decide)⟩

/-- Every recorded wait belongs to an attempt n with 1 < n and equals the
exponential backoff delay for that attempt. -/
theorem waitFor_mem (attempt : Nat) (p : Nat × Nat) (hp : p ∈ waitFor attempt) :
    1 < attempt ∧ p = (attempt, reconnect_base_delay * 2 ^ (attempt - 2)) := by
  unfold waitFor at hp
  split at hp
  next h => simp at hp; exact ⟨h, by simp [hp]⟩
  next h => simp at hp

/-- Waits recorded by the retry loop started at attempt `attempt` with
`remaining` attempts left: each wait precedes an attempt n with
1 < n ≤ attempt + remaining - 1 and lasts base * 2 ^ (n - 2). -/
theorem attemptLoop_waits (env : ReconnectEnv) (audio : AudioRecordingManager)
    (guild : Guild) (session : MeetingSession) :
    ∀ (remaining attempt : Nat),
      ∀ p ∈ (attemptLoop env audio guild session attempt remaining).waits,
        1 < p.1 ∧ p.1 ≤ attempt + remaining - 1 ∧
        p.2 = reconnect_base_delay * 2 ^ (p.1 - 2) := by
  intro remaining
  induction remaining with
  | zero =>
      intro attempt p hp
      simp [attemptLoop] at hp
  | succ r ih =>
      intro attempt p hp
      rw [attemptLoop] at hp
      split at hp
      · dsimp only at hp
        split at hp <;>
          · dsimp only at hp
            obtain ⟨h1, h2⟩ := waitFor_mem attempt p hp
            subst h2
            exact ⟨h1, by omega, rfl⟩
      · split at hp
        · dsimp only at hp
          obtain ⟨h1, h2⟩ := waitFor_mem attempt p hp
          subst h2
          exact ⟨h1, by omega, rfl⟩
        · dsimp only at hp
          rcases List.mem_append.mp hp with hw | hrest
          · obtain ⟨h1, h2⟩ := waitFor_mem attempt p hw
            subst h2
            exact ⟨h1, by omega, rfl⟩
          · obtain ⟨h1, h2, h3⟩ := ih (attempt + 1) p hrest
            exact ⟨h1, by omega, h3⟩

/-- A run where the transport fails attempts 1 and 2 performs exactly the
waits (2, 2s) and (3, 4s) and reaches attempt 3, whatever happens there. -/
theorem attemptLoop_first_two_fail (env : ReconnectEnv) (audio : AudioRecordingManager)
    (guild : Guild) (session : MeetingSession)
    (h1 : env.connectOk 1 = false) (h2 : env.connectOk 2 = false) :
    (attemptLoop env audio guild session 1 3).waits = [(2, 2), (3, 4)] ∧
    (attemptLoop env audio guild session 1 3).attemptsMade = 3 := by
  cases hc3 : env.connectOk 3 with
  | false => norm_num [attemptLoop, h1, h2, hc3, waitFor, reconnect_base_delay]
  | true =>
      cases hr : (audio.start_recording guild.id env.connected_vc session.meeting_id).1.1 with
      | true => norm_num [attemptLoop, h1, h2, hc3, hr, waitFor, reconnect_base_delay]
      | false => norm_num [attemptLoop, h1, h2, hc3, hr, waitFor, reconnect_base_delay]

/-- C4: attempt 1 is made with no preceding delay, every wait before an
attempt n > 1 (n up to MAX_ATTEMPTS = 3) lasts exactly
BASE_DELAY * 2 ^ (n - 2) with BASE_DELAY = 2, and a run whose transport fails
attempts 1 and 2 uses all three attempts with waits of 2s before attempt 2 and
4s before attempt 3. -/
theorem backoff_schedule (env : ReconnectEnv) (audio : AudioRecordingManager)
    (guild : Guild) (session : MeetingSession) :
    (∀ p ∈ (attempt_reconnect env audio guild session).waits,
        1 < p.1 ∧ p.1 ≤ max_reconnect_attempts ∧
        p.2 = reconnect_base_delay * 2 ^ (p.1 - 2)) ∧
    reconnect_base_delay = 2 ∧ max_reconnect_attempts = 3 ∧
    (env.connectOk 1 = false → env.connectOk 2 = false →
      session.voice_channel_id ∈ guild.channels →
      (attempt_reconnect env audio guild session).waits = [(2, 2), (3, 4)] ∧
      (attempt_reconnect env audio guild session).attemptsMade = 3) := by
  refine ⟨?_, rfl, rfl, ?_⟩
  · intro p hp
    unfold attempt_reconnect at hp
    split at hp
    · obtain ⟨ha, hb, hc⟩ := attemptLoop_waits env audio guild session max_reconnect_attempts 1 p hp
      refine ⟨ha, ?_, hc⟩
      simp [max_reconnect_attempts] at hb ⊢
      omega
    · simp at hp
  · intro h1 h2 hmem
    unfold attempt_reconnect
    rw [if_pos hmem]
    exact attemptLoop_first_two_fail env audio guild session h1 h2

/-- Witness for C4: the always-failing transport against the concrete guild-1
fixtures performs exactly the waits 2s and 4s and reaches attempt 3. -/
theorem backoff_schedule_witness :
    (attempt_reconnect envAllFail audioA guildNoVC sessionA).waits = [(2, 2), (3, 4)] ∧
    (attempt_reconnect envAllFail audioA guildNoVC sessionA).attemptsMade = 3 :=
  (backoff_schedule envAllFail audioA guildNoVC sessionA).2.2.2 rfl rfl (by decide)

/-- A run whose transport fails all three attempts returns failure after
attempt 3 with the two backoff waits, leaving the audio manager untouched. -/
theorem attemptLoop_all_fail (env : ReconnectEnv) (audio : AudioRecordingManager)
    (guild : Guild) (session : MeetingSession)
    (h1 : env.connectOk 1 = false) (h2 : env.connectOk 2 = false)
    (h3 : env.connectOk 3 = false) :
    attemptLoop env audio guild session 1 3 =
      { reconnected := false, waits := [(2, 2), (3, 4)], attemptsMade := 3
        audio := audio, notices := [] } := by
  norm_num [attemptLoop, h1, h2, h3, waitFor, reconnect_base_delay]

/-- C2 (amended): with a transport failing every attempt, the supervisor makes
exactly 3 attempts and concludes unrecovered; the session is ended through the
session store (removed from the active index, archived with status ENDED) and
the in-flight flag is clear, unconditionally; the residual recording is
stopped (sink deregistered) when the guild still exposes a voice client, and
the connection-failure notification is sent when the originating text channel
still resolves — both of which hold in this statement's hypotheses. -/
theorem reconnection_exhaustion (env : ReconnectEnv) (bot : MeetingBot) (guild : Guild)
    (session : MeetingSession) (vc : VoiceClient) (sink : AudioSink) (now : Nat)
    (hact : bot.meeting_manager.active_meetings guild.id = some session)
    (hflag : guild.id ∉ bot.reconnecting)
    (hmem : session.voice_channel_id ∈ guild.channels)
    (h1 : env.connectOk 1 = false) (h2 : env.connectOk 2 = false)
    (h3 : env.connectOk 3 = false)
    (hvc : guild.voice_client = some vc)
    (htc : session.text_channel_id ∈ guild.channels)
    (hsink : bot.audio_manager.active_recorders guild.id = some sink) :
    (on_voice_state_update_disconnect env bot guild now).2.supervisorRan = true ∧
    (on_voice_state_update_disconnect env bot guild now).2.reconnected = false ∧
    (on_voice_state_update_disconnect env bot guild now).2.attemptsMade = 3 ∧
    (on_voice_state_update_disconnect env bot guild now).1.audio_manager.active_recorders guild.id
      = none ∧
    (on_voice_state_update_disconnect env bot guild now).1.meeting_manager.active_meetings guild.id
      = none ∧
    MeetingSession.end_ session now ∈
      (on_voice_state_update_disconnect env bot guild now).1.meeting_manager.archived ∧
    (MeetingSession.end_ session now).status = MeetingStatus.ended ∧
    guild.id ∉ (on_voice_state_update_disconnect env bot guild now).1.reconnecting ∧
    Notice.endedConnectionFailure session.meeting_id ∈
      (on_voice_state_update_disconnect env bot guild now).2.notices := by
  have hres : attempt_reconnect env bot.audio_manager guild session =
      { reconnected := false, waits := [(2, 2), (3, 4)], attemptsMade := 3
        audio := bot.audio_manager, notices := [] } := by
    unfold attempt_reconnect
    rw [if_pos hmem]
    exact attemptLoop_all_fail env bot.audio_manager guild session h1 h2 h3
  simp [on_voice_state_update_disconnect, MeetingStateManager.get_active_meeting, hact,
    hflag, hres, hvc, AudioRecordingManager.stop_recording, hsink,
    MeetingStateManager.end_meeting, htc, MeetingSession.end_, List.erase_cons_head]

/-- Witness for C2 (amended) at the concrete guild-1 fixtures with a still
present voice client and resolvable text channel. -/
theorem reconnection_exhaustion_witness :
    (on_voice_state_update_disconnect envAllFail botA guildWithVC 9).2.attemptsMade = 3 ∧
    (on_voice_state_update_disconnect envAllFail botA guildWithVC 9).1.audio_manager.active_recorders 1
      = none ∧
    (on_voice_state_update_disconnect envAllFail botA guildWithVC 9).1.meeting_manager.active_meetings 1
      = none ∧
    1 ∉ (on_voice_state_update_disconnect envAllFail botA guildWithVC 9).1.reconnecting ∧
    Notice.endedConnectionFailure 7 ∈
      (on_voice_state_update_disconnect envAllFail botA guildWithVC 9).2.notices := by
  have h := reconnection_exhaustion envAllFail botA guildWithVC sessionA
    (VoiceClient.mk true false) sinkA 9 rfl (by decide) (by decide) rfl rfl rfl rfl
    (by decide) rfl
  obtain ⟨hA, hB, hC, hD, hE, hF, hG, hH, hI⟩ := h
  exact ⟨hC, hD, hE, hH, hI⟩

/-- Counterexample to C2 as stated: when the guild no longer exposes a voice
client at cleanup time (the usual situation after an involuntary disconnect),
exhaustion is reached and the session is ended, yet the residual recording is
NOT stopped — the sink is still registered for the guild afterwards. -/
theorem exhaustion_misses_residual_recording :
    (on_voice_state_update_disconnect envAllFail botA guildNoVC 9).2.attemptsMade = 3 ∧
    (on_voice_state_update_disconnect envAllFail botA guildNoVC 9).2.reconnected = false ∧
    (on_voice_state_update_disconnect envAllFail botA guildNoVC 9).1.meeting_manager.active_meetings 1
      = none ∧
    ((on_voice_state_update_disconnect envAllFail botA guildNoVC 9).1.audio_manager.active_recorders 1).isSome
      = true := by
  decide

/-- C1 (code behaviour at the failing input): guild 1 has a RECORDING session
whose sink is still registered, and the transport reconnects on attempt 1,
yet the supervisor does not reach RECOVERED: resuming fails with the
already-active rejection from `start_recording`, the run concludes
unrecovered after one attempt, and the session is terminated. -/
theorem reconnect_terminates_despite_transport_success :
    envAllOk.connectOk 1 = true ∧
    sessionA.status = MeetingStatus.recording ∧
    (botA.audio_manager.active_recorders 1).isSome = true ∧
    (botA.audio_manager.start_recording 1 envAllOk.connected_vc sessionA.meeting_id).1 =
      (false, some RecErr.alreadyActive) ∧
    (on_voice_state_update_disconnect envAllOk botA guildNoVC 9).2.reconnected = false ∧
    (on_voice_state_update_disconnect envAllOk botA guildNoVC 9).2.attemptsMade = 1 ∧
    (on_voice_state_update_disconnect envAllOk botA guildNoVC 9).1.meeting_manager.active_meetings 1
      = none := by
  decide

end MeetingBotModel
